import Mathlib

/-!
Shallow embedding of the vtadmin API aggregation layer
(go/vt/vtadmin/api.go) and proofs about its observable behavior.

Remote collaborators (discovery client, vtctld control-plane client, the
vtexplain engine) are modelled as oracle fields of the `Cluster` /
`ExplainEngine` structures: each field holds the outcome the remote call
would produce during the request under consideration.  The concurrent
fan-outs of the Go code are embedded sequentially, in source order of the
dispatch loop; every claim proved below is order-insensitive (error
accumulation, emptiness, membership), matching the spec's own statement
that accumulation order is not part of the contract.

Each operation returns, besides its Go-style `(result, error)` pair, the
list of remote calls it issued, so that "no remote call occurs" claims are
statable.
-/

namespace Vtadmin

/-- vtrpcpb.Code, the programmatic error code carried by vterrors. -/
inductive Code where
  | OK
  | CANCELED
  | UNKNOWN
  | INVALID_ARGUMENT
  | DEADLINE_EXCEEDED
  | NOT_FOUND
  | ALREADY_EXISTS
  | FAILED_PRECONDITION
  | INTERNAL
  | UNAVAILABLE
  deriving DecidableEq, Repr

/-- Errors observable from the API layer.  `remote` is an opaque failure of
a remote call (carried by its message).  `invalidRequest ...`,
`unsupportedCluster` and `noSrvVSchema ...` mirror the sentinel errors of
the vtadmin errors package wrapped by `fmt.Errorf` with the shown suffixes.
`vterror` is an error built by `vterrors.Errorf(code, format, args...)`:
it carries a vtrpc code and a formatted message (the format verb used in
api.go is `%s`, which flattens any sentinel argument into the message
text).  `aggregate` is the combined error of a non-empty
`concurrency.AllErrorRecorder`.  `panicked` marks a nil-pointer
dereference the Go code would crash on. -/
inductive Err where
  | remote (msg : String)
  | invalidRequest (msg : String)
  | unsupportedCluster
  | noSrvVSchema (keyspace : String)
  | vterror (code : Code) (msg : String)
  | aggregate (errs : List Err)
  | panicked (msg : String)

/-- topodatapb.TabletType. -/
inductive TabletType where
  | UNKNOWN
  | MASTER
  | REPLICA
  | RDONLY
  | BATCH
  | SPARE
  | EXPERIMENTAL
  | BACKUP
  | RESTORE
  | DRAINED
  deriving DecidableEq, Repr

/-- Modelled from the spec: `topo.IsInServingGraph` (go/vt/topo, not in
src); serving-graph membership holds for primary, replica and rdonly
tablet types. -/
def IsInServingGraph : TabletType → Bool
  | .MASTER => true
  | .REPLICA => true
  | .RDONLY => true
  | _ => false

/-- topodatapb.TabletAlias. -/
structure TabletAlias where
  cell : String
  uid : Nat
  deriving DecidableEq, Repr

/-- vtadminpb.Tablet.ServingState. -/
inductive TabletState where
  | UNKNOWN
  | SERVING
  | NOT_SERVING
  deriving DecidableEq, Repr

/-- vtadminpb.Cluster: the detached (id, name) cluster reference embedded
into response objects. -/
structure PbCluster where
  id : String
  name : String
  deriving DecidableEq, Repr

/-- The topodata part of a vtadmin tablet: hostname, keyspace, alias,
type. -/
structure TopoTablet where
  hostname : String
  keyspace : String
  tabletAlias : TabletAlias
  tabletType : TabletType
  deriving DecidableEq, Repr

/-- vtadminpb.Tablet: cluster reference, topo tablet, serving state. -/
structure Tablet where
  cluster : PbCluster
  tablet : TopoTablet
  state : TabletState
  deriving DecidableEq, Repr

/-- vtctldatapb.Keyspace descriptor (only the name is consumed here). -/
structure Keyspace where
  name : String
  deriving DecidableEq, Repr

/-- One entry of a FindAllShardsInKeyspace response: shard name plus the
topodatapb.Shard value, modelled by its JSON serialization. -/
structure ShardEntry where
  name : String
  shardJson : String
  deriving DecidableEq, Repr

/-- tabletmanagerdata.TableDefinition (name and DDL text). -/
structure TableDefinition where
  name : String
  schema : String
  deriving DecidableEq, Repr

/-- tabletmanagerdata.SchemaDefinition. -/
structure SchemaDefinition where
  tableDefinitions : List TableDefinition
  deriving DecidableEq, Repr

/-- vtctldatapb.GetSchemaResponse; the inner schema pointer may be nil. -/
structure GetSchemaResponse where
  schema : Option SchemaDefinition
  deriving DecidableEq, Repr

/-- vschemapb.SrvVSchema: a map keyspace name → keyspace vschema, the
vschema value modelled by its JSON serialization. -/
structure SrvVSchemaResult where
  keyspaces : List (String × String)
  deriving DecidableEq, Repr

/-- A gate as returned by the per-cluster discovery client. -/
structure DiscoveredGate where
  cell : String
  hostname : String
  keyspaces : List String
  pool : String
  deriving DecidableEq, Repr

/-- vtadminpb.VTGate: a discovered gate tagged with its owning cluster. -/
structure VTGate where
  cell : String
  cluster : PbCluster
  hostname : String
  keyspaces : List String
  pool : String
  deriving DecidableEq, Repr

/-- vtadminpb.Keyspace: cluster reference, keyspace descriptor, shards. -/
structure PbKeyspace where
  cluster : PbCluster
  keyspace : Keyspace
  shards : List ShardEntry
  deriving DecidableEq, Repr

/-- vtadminpb.Schema: cluster reference, keyspace name, table
definitions. -/
structure Schema where
  cluster : PbCluster
  keyspace : String
  tableDefinitions : List TableDefinition
  deriving DecidableEq, Repr

/-- A remote-call outcome: either the value or an opaque remote error
message. -/
abbrev RemoteResult (α : Type) := Except String α

/-- cluster.Cluster: identifier, display name, and the oracle outcomes of
each remote endpoint the API layer consumes (spec section 6). -/
structure Cluster where
  id : String
  name : String
  discoverVTGates : RemoteResult (List DiscoveredGate)
  dial : RemoteResult Unit
  getKeyspaces : RemoteResult (List Keyspace)
  findAllShards : String → RemoteResult (List ShardEntry)
  getSchema : TabletAlias → RemoteResult (Option GetSchemaResponse)
  getSrvVSchema : String → RemoteResult SrvVSchemaResult
  getTablets : RemoteResult (List Tablet)

/-- cluster.Cluster.ToProto: the detached (id, name) reference. -/
def Cluster.toProto (c : Cluster) : PbCluster := ⟨c.id, c.name⟩

/-- The API server state: the configured cluster list (the cluster map is
derived from it the way NewAPI builds it). -/
structure API where
  clusters : List Cluster

/-- Lookup in the cluster map built by NewAPI (`clusterMap[cluster.ID] =
cluster` over the configured list; a Go map insert overwrites, so the last
occurrence of an identifier wins). -/
def clusterMapFind (clusters : List Cluster) (id : String) : Option Cluster :=
  (clusters.filter (fun c => c.id == id)).getLast?

/-- The key set of the cluster map (each distinct identifier once; Go map
iteration order is arbitrary, this model lists first occurrences). -/
def clusterMapKeys (clusters : List Cluster) : List String :=
  (clusters.map (fun c => c.id)).dedup

/-- api.getClustersForRequest: empty filter returns the full configured
list plus all map keys; otherwise the clusters found in the map for the
given ids, in caller order, unknown ids dropped, and the ids echoed
back. -/
def getClustersForRequest (api : API) (ids : List String) :
    List Cluster × List String :=
  if ids.isEmpty then
    (api.clusters, clusterMapKeys api.clusters)
  else
    (ids.filterMap (clusterMapFind api.clusters), ids)

/-- A remote call issued by the API layer (used to state "no remote call
occurs" properties); the final two record handoffs to the vtexplain
engine. -/
inductive Call where
  | discoverVTGates (clusterId : String)
  | dial (clusterId : String)
  | getKeyspaces (clusterId : String)
  | findAllShards (clusterId : String) (keyspace : String)
  | getSchema (clusterId : String) (tabletAlias : TabletAlias)
  | getSrvVSchema (clusterId : String) (cell : String)
  | getTablets (clusterId : String)
  | vtexplainInit (srvVSchema : String) (schema : String) (shardMap : String)
  | vtexplainRun (sql : String)
  deriving DecidableEq, Repr

/-- A Go-style `(result, error)` return pair. -/
abbrev GoResult (α : Type) := Option α × Option Err

/-! ## GetGates -/

/-- One branch of the GetGates fan-out: discover the cluster's gates; on
failure record the error, on success append the gates tagged with the
cluster reference. -/
def getGatesStep (acc : List VTGate × List Err × List Call) (c : Cluster) :
    List VTGate × List Err × List Call :=
  let (gates, errs, calls) := acc
  match c.discoverVTGates with
  | .error e => (gates, errs ++ [.remote e], calls ++ [.discoverVTGates c.id])
  | .ok gs =>
      (gates ++ gs.map (fun g => ⟨g.cell, ⟨c.id, c.name⟩, g.hostname, g.keyspaces, g.pool⟩),
        errs, calls ++ [.discoverVTGates c.id])

/-- The whole GetGates fan-out over the resolved clusters: accumulated
gates, recorded errors, issued calls. -/
def getGatesLoop (clusters : List Cluster) : List VTGate × List Err × List Call :=
  clusters.foldl getGatesStep ([], [], [])

/-- api.GetGates. -/
def GetGates (api : API) (clusterIds : List String) :
    GoResult (List VTGate) × List Call :=
  let clusters := (getClustersForRequest api clusterIds).1
  let (gates, errs, calls) := getGatesLoop clusters
  if errs.isEmpty then ((some gates, none), calls)
  else ((none, some (.aggregate errs)), calls)

/-! ## GetKeyspaces -/

/-- One branch of the inner (per-keyspace) fan-out of GetKeyspaces:
find all shards; errors go to the outer recorder (the accumulated error
list), successes build a vtadmin keyspace entry. -/
def getKeyspacesInnerStep (c : Cluster)
    (acc : List PbKeyspace × List Err × List Call) (ks : Keyspace) :
    List PbKeyspace × List Err × List Call :=
  let (kss, errs, calls) := acc
  match c.findAllShards ks.name with
  | .error e => (kss, errs ++ [.remote e], calls ++ [.findAllShards c.id ks.name])
  | .ok shards =>
      (kss ++ [⟨c.toProto, ks, shards⟩], errs, calls ++ [.findAllShards c.id ks.name])

/-- The inner fan-out of GetKeyspaces over one cluster's keyspaces. -/
def getKeyspacesInner (c : Cluster) (kss : List Keyspace) :
    List PbKeyspace × List Err × List Call :=
  kss.foldl (getKeyspacesInnerStep c) ([], [], [])

/-- One branch of the outer GetKeyspaces fan-out: dial, list keyspaces,
then run the inner fan-out; the inner branches record errors into the same
(outer) recorder, and the inner accumulator is merged into the outer one
even when some inner branch failed. -/
def getKeyspacesStep (acc : List PbKeyspace × List Err × List Call) (c : Cluster) :
    List PbKeyspace × List Err × List Call :=
  let (result, errs, calls) := acc
  match c.dial with
  | .error e => (result, errs ++ [.remote e], calls ++ [.dial c.id])
  | .ok _ =>
    match c.getKeyspaces with
    | .error e => (result, errs ++ [.remote e], calls ++ [.dial c.id, .getKeyspaces c.id])
    | .ok kss =>
      let (inner, ierrs, icalls) := getKeyspacesInner c kss
      (result ++ inner, errs ++ ierrs, calls ++ [.dial c.id, .getKeyspaces c.id] ++ icalls)

/-- The whole GetKeyspaces fan-out over the resolved clusters. -/
def getKeyspacesLoop (clusters : List Cluster) :
    List PbKeyspace × List Err × List Call :=
  clusters.foldl getKeyspacesStep ([], [], [])

/-- api.GetKeyspaces. -/
def GetKeyspaces (api : API) (clusterIds : List String) :
    GoResult (List PbKeyspace) × List Call :=
  let clusters := (getClustersForRequest api clusterIds).1
  let (keyspaces, errs, calls) := getKeyspacesLoop clusters
  if errs.isEmpty then ((some keyspaces, none), calls)
  else ((none, some (.aggregate errs)), calls)

/-! ## GetSchemas -/

/-- The serving-tablet selection loop of api.getSchemasForKeyspace: walk
the tablet list, skipping tablets of other keyspaces and non-serving
tablets, and keep overwriting the chosen tablet with each match. -/
def chooseServingTablet (ksName : String) (tablets : List Tablet) : Option Tablet :=
  tablets.foldl
    (fun kt t =>
      if t.tablet.keyspace != ksName || t.state != TabletState.SERVING then kt
      else some t)
    none

/-- api.getSchemasForKeyspace: select a serving tablet (none → skip with
no error and no calls), dial, fetch the schema from it, and drop
degenerate schema results (nil response, nil schema, no table
definitions) silently. -/
def getSchemasForKeyspace (c : Cluster) (ks : Keyspace) (tablets : List Tablet) :
    GoResult Schema × List Call :=
  match chooseServingTablet ks.name tablets with
  | none => ((none, none), [])
  | some kt =>
    match c.dial with
    | .error e => ((none, some (.remote e)), [.dial c.id])
    | .ok _ =>
      let calls := [Call.dial c.id, Call.getSchema c.id kt.tablet.tabletAlias]
      match c.getSchema kt.tablet.tabletAlias with
      | .error e => ((none, some (.remote e)), calls)
      | .ok none => ((none, none), calls)
      | .ok (some resp) =>
        match resp.schema with
        | none => ((none, none), calls)
        | some sd =>
          if sd.tableDefinitions.length == 0 then ((none, none), calls)
          else ((some ⟨⟨c.id, c.name⟩, ks.name, sd.tableDefinitions⟩, none), calls)

/-- One branch of the per-keyspace fan-out inside api.getSchemas: errors
go to the local recorder, nil schemas are ignored, real schemas are
appended. -/
def getSchemasKsStep (c : Cluster) (tablets : List Tablet)
    (acc : List Schema × List Err × List Call) (ks : Keyspace) :
    List Schema × List Err × List Call :=
  let (schemas, errs, calls) := acc
  match getSchemasForKeyspace c ks tablets with
  | ((_, some e), kcalls) => (schemas, errs ++ [e], calls ++ kcalls)
  | ((none, none), kcalls) => (schemas, errs, calls ++ kcalls)
  | ((some s, none), kcalls) => (schemas ++ [s], errs, calls ++ kcalls)

/-- api.getSchemas: dial, list the cluster's keyspaces, then fan out per
keyspace with a local error recorder; a non-empty recorder fails the whole
per-cluster fetch. -/
def getSchemas (c : Cluster) (tablets : List Tablet) :
    GoResult (List Schema) × List Call :=
  match c.dial with
  | .error e => ((none, some (.remote e)), [.dial c.id])
  | .ok _ =>
    match c.getKeyspaces with
    | .error e => ((none, some (.remote e)), [.dial c.id, .getKeyspaces c.id])
    | .ok kss =>
      let (schemas, errs, calls) := kss.foldl (getSchemasKsStep c tablets) ([], [], [])
      let allCalls := [Call.dial c.id, Call.getKeyspaces c.id] ++ calls
      if errs.isEmpty then ((some schemas, none), allCalls)
      else ((none, some (.aggregate errs)), allCalls)

/-- One branch of the outer GetSchemas fan-out: fetch the cluster's
tablets once, then run the per-cluster schema fetch; either failure is
recorded into the outer recorder. -/
def getSchemasTopStep (acc : List Schema × List Err × List Call) (c : Cluster) :
    List Schema × List Err × List Call :=
  let (schemas, errs, calls) := acc
  match c.getTablets with
  | .error e => (schemas, errs ++ [.remote e], calls ++ [.getTablets c.id])
  | .ok tablets =>
    match getSchemas c tablets with
    | ((_, some e), ccalls) =>
        (schemas, errs ++ [e], calls ++ [.getTablets c.id] ++ ccalls)
    | ((ss, none), ccalls) =>
        (schemas ++ ss.getD [], errs, calls ++ [.getTablets c.id] ++ ccalls)

/-- The whole GetSchemas fan-out over the resolved clusters. -/
def getSchemasLoop (clusters : List Cluster) :
    List Schema × List Err × List Call :=
  clusters.foldl getSchemasTopStep ([], [], [])

/-- api.GetSchemas. -/
def GetSchemas (api : API) (clusterIds : List String) :
    GoResult (List Schema) × List Call :=
  let clusters := (getClustersForRequest api clusterIds).1
  let (schemas, errs, calls) := getSchemasLoop clusters
  if errs.isEmpty then ((some schemas, none), calls)
  else ((none, some (.aggregate errs)), calls)

/-! ## GetTablet / GetTablets -/

/-- Modelled from the spec: the message texts of the sentinel errors
`ErrNoTablet` and `ErrAmbiguousTablet` of package vtadmin/errors (absent
from src); api.go interpolates them with the `%s` verb, so only their
texts reach the produced error. -/
def ErrNoTabletMsg : String := "no tablet found"

/-- Modelled from the spec: see `ErrNoTabletMsg`. -/
def ErrAmbiguousTabletMsg : String := "ambiguous tablet"

/-- Go fmt `%v` rendering of a string slice, used for the searched-cluster
list in GetTablet failure messages. -/
def goStringsFmt (xs : List String) : String :=
  "[" ++ String.intercalate " " xs ++ "]"

/-- One branch of the GetTablet fan-out: list the cluster's tablets and
keep those whose hostname matches. -/
def getTabletStep (hostname : String)
    (acc : List Tablet × List Err × List Call) (c : Cluster) :
    List Tablet × List Err × List Call :=
  let (tablets, errs, calls) := acc
  match c.getTablets with
  | .error e => (tablets, errs ++ [.remote e], calls ++ [.getTablets c.id])
  | .ok ts =>
      (tablets ++ ts.filter (fun t => t.tablet.hostname == hostname),
        errs, calls ++ [.getTablets c.id])

/-- The whole GetTablet fan-out over the resolved clusters. -/
def getTabletLoop (hostname : String) (clusters : List Cluster) :
    List Tablet × List Err × List Call :=
  clusters.foldl (getTabletStep hostname) ([], [], [])

/-- api.GetTablet: collect hostname matches across the resolved clusters,
then disambiguate 0 / 1 / many. -/
def GetTablet (api : API) (hostname : String) (clusterIds : List String) :
    GoResult Tablet × List Call :=
  let (clusters, ids) := getClustersForRequest api clusterIds
  let (tablets, errs, calls) := getTabletLoop hostname clusters
  if errs.isEmpty then
    match tablets with
    | [] =>
        ((none, some (.vterror .NOT_FOUND
          (ErrNoTabletMsg ++ ": " ++ hostname ++ ", searched clusters = " ++ goStringsFmt ids))), calls)
    | [t] => ((some t, none), calls)
    | _ =>
        ((none, some (.vterror .NOT_FOUND
          (ErrAmbiguousTabletMsg ++ ": " ++ hostname ++ ", searched clusters = " ++ goStringsFmt ids))), calls)
  else ((none, some (.aggregate errs)), calls)

/-- One branch of the GetTablets fan-out: list the cluster's tablets and
append them all. -/
def getTabletsStep (acc : List Tablet × List Err × List Call) (c : Cluster) :
    List Tablet × List Err × List Call :=
  let (tablets, errs, calls) := acc
  match c.getTablets with
  | .error e => (tablets, errs ++ [.remote e], calls ++ [.getTablets c.id])
  | .ok ts => (tablets ++ ts, errs, calls ++ [.getTablets c.id])

/-- The whole GetTablets fan-out over the resolved clusters. -/
def getTabletsLoop (clusters : List Cluster) :
    List Tablet × List Err × List Call :=
  clusters.foldl getTabletsStep ([], [], [])

/-- api.GetTablets. -/
def GetTablets (api : API) (clusterIds : List String) :
    GoResult (List Tablet) × List Call :=
  let clusters := (getClustersForRequest api clusterIds).1
  let (tablets, errs, calls) := getTabletsLoop clusters
  if errs.isEmpty then ((some tablets, none), calls)
  else ((none, some (.aggregate errs)), calls)

/-! ## VTExplain -/

/-- The external vtexplain engine (spec section 6), consumed as a black
box: initialization from the three serialized artifacts, plan computation,
plan rendering. -/
structure ExplainEngine where
  init : String → String → String → Except String Unit
  run : String → Except String (List String)
  asText : List String → String

/-- The tablet predicate VTExplain hands to the Tablet Resolver: same
keyspace, in the serving graph, not the primary, serving state. -/
def vtexplainPred (keyspace : String) (t : Tablet) : Bool :=
  t.tablet.keyspace == keyspace && IsInServingGraph t.tablet.tabletType &&
    t.tablet.tabletType != TabletType.MASTER && t.state == TabletState.SERVING

/-- Modelled from the spec: cluster.Cluster.FindTablet
(go/vt/vtadmin/cluster, absent from src) — the Tablet Resolver's predicate
form (spec section 4.4): list the cluster's tablets, collect every match,
and map 0 matches to a not-found condition, 1 match to the tablet, several
matches to an ambiguous condition. -/
def FindTablet (c : Cluster) (pred : Tablet → Bool) :
    Except Err Tablet × List Call :=
  match c.getTablets with
  | .error e => (.error (.remote e), [.getTablets c.id])
  | .ok ts =>
    match ts.filter pred with
    | [] => (.error (.vterror .NOT_FOUND ErrNoTabletMsg), [.getTablets c.id])
    | [t] => (.ok t, [.getTablets c.id])
    | _ => (.error (.vterror .NOT_FOUND ErrAmbiguousTabletMsg), [.getTablets c.id])

/-- The `{"<keyspace>": <body>}` serialization VTExplain builds with
fmt.Sprintf for the vschema fragment and the shard map. -/
def jsonFragment (keyspace : String) (body : String) : String :=
  "\x7b\"" ++ keyspace ++ "\": " ++ body ++ "\x7d"

/-- Models encoding/json marshalling of the `map[string]*topodatapb.Shard`
VTExplain builds from the shard entries (later entries overwrite earlier
ones with the same name, as Go map insertion does); the marshaller's exact
key ordering is abstracted to first-occurrence order. -/
def marshalShardMap (entries : List ShardEntry) : String :=
  let names := (entries.map (fun s => s.name)).dedup
  let body := names.map (fun n =>
    "\"" ++ n ++ "\":" ++
      (((entries.filter (fun s => s.name == n)).getLast?).map (fun s => s.shardJson)).getD "")
  "\x7b" ++ String.intercalate "," body ++ "\x7d"

/-- Go map lookup in the modelled SrvVSchema keyspace map (last insert
wins). -/
def srvVSchemaFind (keyspaces : List (String × String)) (k : String) : Option String :=
  ((keyspaces.filter (fun p => p.1 == k)).getLast?).map (fun p => p.2)

/-- The GetSchema goroutine of VTExplain: on remote failure record the
error and leave the slot at its zero value; on success join the table DDL
texts with a semicolon.  The Go code dereferences `res.Schema` without a
nil check, so a nil response or nil schema is a nil-pointer panic,
modelled by the `.error` constructor of the outer Except. -/
def vtexplainSchemaBranch (c : Cluster) (ta : TabletAlias) :
    Except String (String × List Err) × List Call :=
  match c.getSchema ta with
  | .error e => (.ok ("", [Err.remote e]), [.getSchema c.id ta])
  | .ok none => (.error "nil pointer dereference: res.Schema", [.getSchema c.id ta])
  | .ok (some resp) =>
    match resp.schema with
    | none => (.error "nil pointer dereference: res.Schema", [.getSchema c.id ta])
    | some sd =>
      (.ok (String.intercalate ";" (sd.tableDefinitions.map (fun td => td.schema)), []),
        [.getSchema c.id ta])

/-- The GetSrvVSchema goroutine of VTExplain: fetch the serving vschema of
the tablet's cell; a missing keyspace key records the no-serving-vschema
condition; otherwise the slot becomes the keyspace fragment. -/
def vtexplainVSchemaBranch (c : Cluster) (keyspace : String) (cell : String) :
    (String × List Err) × List Call :=
  match c.getSrvVSchema cell with
  | .error e => (("", [.remote e]), [.getSrvVSchema c.id cell])
  | .ok res =>
    match srvVSchemaFind res.keyspaces keyspace with
    | none => (("", [.noSrvVSchema keyspace]), [.getSrvVSchema c.id cell])
    | some ksvs => ((jsonFragment keyspace ksvs, []), [.getSrvVSchema c.id cell])

/-- The FindAllShardsInKeyspace goroutine of VTExplain: fetch the shard
list and serialize it as the keyspace's shard-map fragment. -/
def vtexplainShardBranch (c : Cluster) (keyspace : String) :
    (String × List Err) × List Call :=
  match c.findAllShards keyspace with
  | .error e => (("", [.remote e]), [.findAllShards c.id keyspace])
  | .ok entries =>
      ((jsonFragment keyspace (marshalShardMap entries), []),
        [.findAllShards c.id keyspace])

/-- api.VTExplain: validate the three request fields, resolve the cluster
and a serving non-primary tablet, dial, run the three artifact fetches
(embedded in source order), and on an empty recorder hand the artifacts to
the explain engine. -/
def VTExplain (api : API) (engine : ExplainEngine)
    (clusterId keyspace sql : String) : GoResult String × List Call :=
  if clusterId == "" then
    ((none, some (.invalidRequest "cluster ID is required")), [])
  else if keyspace == "" then
    ((none, some (.invalidRequest "keyspace name is required")), [])
  else if sql == "" then
    ((none, some (.invalidRequest "SQL query is required")), [])
  else
    match clusterMapFind api.clusters clusterId with
    | none => ((none, some .unsupportedCluster), [])
    | some c =>
      match FindTablet c (vtexplainPred keyspace) with
      | (.error e, fcalls) => ((none, some e), fcalls)
      | (.ok tablet, fcalls) =>
        match c.dial with
        | .error e => ((none, some (.remote e)), fcalls ++ [.dial c.id])
        | .ok _ =>
          let calls0 := fcalls ++ [Call.dial c.id]
          match vtexplainSchemaBranch c tablet.tablet.tabletAlias with
          | (.error msg, scalls) => ((none, some (.panicked msg)), calls0 ++ scalls)
          | (.ok (schema, serrs), scalls) =>
            match vtexplainVSchemaBranch c keyspace tablet.tablet.tabletAlias.cell with
            | ((srvVSchema, verrs), vcalls) =>
              match vtexplainShardBranch c keyspace with
              | ((shardMap, sherrs), shcalls) =>
                let errs := serrs ++ verrs ++ sherrs
                let calls1 := calls0 ++ scalls ++ vcalls ++ shcalls
                if errs.isEmpty then
                  let initCall := Call.vtexplainInit srvVSchema schema shardMap
                  match engine.init srvVSchema schema shardMap with
                  | .error e => ((none, some (.remote e)), calls1 ++ [initCall])
                  | .ok _ =>
                    match engine.run sql with
                    | .error e =>
                        ((none, some (.remote e)), calls1 ++ [initCall, .vtexplainRun sql])
                    | .ok plans =>
                        ((some (engine.asText plans), none),
                          calls1 ++ [initCall, .vtexplainRun sql])
                else ((none, some (.aggregate errs)), calls1)

/-- The keyspace/state condition of the serving-tablet selection loop,
in positive form. -/
def servingFor (ksName : String) (t : Tablet) : Bool :=
  t.tablet.keyspace == ksName && t.state == TabletState.SERVING

/-- The programmatic content of an error: every payload kept except
message text.  Two errors a caller can tell apart without parsing message
strings have different kinds. -/
inductive ErrKind where
  | remote
  | invalidRequest
  | unsupportedCluster
  | noSrvVSchema (keyspace : String)
  | vterror (code : Code)
  | aggregate
  | panicked
  deriving DecidableEq, Repr

/-- Kind projection for `Err`. -/
def Err.kind : Err → ErrKind
  | .remote _ => .remote
  | .invalidRequest _ => .invalidRequest
  | .unsupportedCluster => .unsupportedCluster
  | .noSrvVSchema ks => .noSrvVSchema ks
  | .vterror code _ => .vterror code
  | .aggregate _ => .aggregate
  | .panicked _ => .panicked

/-! ## Sample data used by the concrete witness theorems -/

/-- A serving replica tablet of keyspace ks1 (hostname shared with `st2`). -/
def st1 : Tablet := ⟨⟨"w", "W"⟩, ⟨"hh", "ks1", ⟨"zone1", 100⟩, .REPLICA⟩, .SERVING⟩

/-- A second serving replica tablet of keyspace ks1, later in the list. -/
def st2 : Tablet := ⟨⟨"w", "W"⟩, ⟨"hh", "ks1", ⟨"zone1", 101⟩, .REPLICA⟩, .SERVING⟩

/-- A serving replica tablet of keyspace ks2 with a unique hostname. -/
def st3 : Tablet := ⟨⟨"w", "W"⟩, ⟨"solo", "ks2", ⟨"zone1", 102⟩, .REPLICA⟩, .SERVING⟩

/-- A healthy sample cluster. -/
def cW : Cluster where
  id := "w"
  name := "W"
  discoverVTGates := .ok [⟨"zone1", "gate1", ["ks1"], "pool"⟩]
  dial := .ok ()
  getKeyspaces := .ok [⟨"ks1"⟩, ⟨"ks2"⟩]
  findAllShards := fun _ => .ok [⟨"-", "\x7b\x7d"⟩]
  getSchema := fun _ => .ok (some ⟨some ⟨[⟨"t1", "CREATE TABLE t1"⟩]⟩⟩)
  getSrvVSchema := fun _ => .ok ⟨[("ks2", "vsjson")]⟩
  getTablets := .ok [st1, st2, st3]

/-- A sample cluster whose every remote endpoint fails. -/
def cF : Cluster where
  id := "f"
  name := "F"
  discoverVTGates := .error "gate boom"
  dial := .error "dial boom"
  getKeyspaces := .error "keyspaces boom"
  findAllShards := fun _ => .error "shards boom"
  getSchema := fun _ => .error "schema boom"
  getSrvVSchema := fun _ => .error "vschema boom"
  getTablets := .error "tablets boom"

/-- A healthy cluster whose serving vschema lacks every keyspace. -/
def cMiss : Cluster :=
  { cW with id := "m", name := "M", getSrvVSchema := fun _ => .ok ⟨[]⟩ }

/-- A cluster whose GetSchema succeeds with a nil response. -/
def cNilRes : Cluster :=
  { cW with id := "n0", name := "N0", getSchema := fun _ => .ok none }

/-- A cluster whose GetSchema succeeds with a nil inner schema. -/
def cNilSchema : Cluster :=
  { cW with id := "n1", name := "N1", getSchema := fun _ => .ok (some ⟨none⟩) }

/-- A cluster whose GetSchema succeeds with zero table definitions. -/
def cEmptyDefs : Cluster :=
  { cW with id := "n2", name := "N2", getSchema := fun _ => .ok (some ⟨some ⟨[]⟩⟩) }

/-- An API over the healthy cluster only. -/
def apiW : API := ⟨[cW]⟩

/-- An API over the healthy and the failing cluster. -/
def apiWF : API := ⟨[cW, cF]⟩

/-- An API over the vschema-missing cluster. -/
def apiM : API := ⟨[cMiss]⟩

/-- A trivially succeeding explain engine. -/
def engineW : ExplainEngine where
  init := fun _ _ _ => .ok ()
  run := fun _ => .ok ["plan"]
  asText := fun ps => String.intercalate "; " ps

/-! ## Helper lemmas -/

theorem head?_filter_eq_find? {α : Type} (p : α → Bool) (l : List α) :
    (l.filter p).head? = l.find? p := by
  induction l with
  | nil => rfl
  | cons a l ih =>
    by_cases h : p a <;> simp [List.filter_cons, List.find?_cons, h, ih]

theorem getLast?_filter_eq_find?_reverse {α : Type} (p : α → Bool) (l : List α) :
    (l.filter p).getLast? = l.reverse.find? p := by
  rw [List.getLast?_eq_head?_reverse, ← List.filter_reverse, head?_filter_eq_find?]

theorem foldl_overwrite {α : Type} (p : α → Bool) :
    ∀ (l : List α) (init : Option α),
      l.foldl (fun acc t => if p t then some t else acc) init
        = (l.reverse.find? p).or init := by
  intro l
  induction l with
  | nil => intro init; rfl
  | cons a l ih =>
    intro init
    rw [List.foldl_cons, ih, List.reverse_cons, List.find?_append]
    by_cases h : p a <;> simp [List.find?_cons, h, Option.or_assoc]

theorem chooseServingTablet_step (ksName : String) (kt : Option Tablet) (t : Tablet) :
    (if t.tablet.keyspace != ksName || t.state != TabletState.SERVING then kt
      else some t)
      = if servingFor ksName t then some t else kt := by
  unfold servingFor
  cases h₁ : t.tablet.keyspace == ksName <;>
    cases h₂ : t.state == TabletState.SERVING <;> simp_all [bne]

theorem chooseServingTablet_eq_getLast_filter (ksName : String) (tablets : List Tablet) :
    chooseServingTablet ksName tablets = (tablets.filter (servingFor ksName)).getLast? := by
  unfold chooseServingTablet
  have hstep : (fun (kt : Option Tablet) (t : Tablet) =>
      if t.tablet.keyspace != ksName || t.state != TabletState.SERVING then kt
      else some t)
      = fun kt t => if servingFor ksName t then some t else kt := by
    funext kt t
    exact chooseServingTablet_step ksName kt t
  rw [hstep, foldl_overwrite, getLast?_filter_eq_find?_reverse, Option.or_none]

/-! ## Claims -/

/-- C3: for every keyspace and input tablet list, the schema-discovery
pipeline selects as the serving tablet the last tablet in input-list order
whose keyspace matches and whose state is serving (last-wins); when one is
selected, the schema is fetched from exactly that tablet's alias. -/
theorem serving_tablet_last_wins :
    (∀ (ksName : String) (tablets : List Tablet),
      chooseServingTablet ksName tablets
        = (tablets.filter (servingFor ksName)).getLast?) ∧
    (∀ (c : Cluster) (ks : Keyspace) (tablets : List Tablet) (kt : Tablet),
      chooseServingTablet ks.name tablets = some kt → c.dial = .ok () →
      (getSchemasForKeyspace c ks tablets).2
        = [Call.dial c.id, Call.getSchema c.id kt.tablet.tabletAlias]) := by
  constructor
  · exact chooseServingTablet_eq_getLast_filter
  · intro c ks tablets kt h hdial
    simp only [getSchemasForKeyspace, h, hdial]
    split
    all_goals try rfl
    split
    all_goals try rfl
    split
    all_goals rfl

/-- Witness for C3: with two serving ks1 tablets in the list, the second
(last) one is selected, and the schema call goes to its alias (uid 101,
not 100). -/
theorem serving_tablet_last_wins_witness :
    chooseServingTablet "ks1" [st1, st2, st3] = some st2 ∧
    (getSchemasForKeyspace cW ⟨"ks1"⟩ [st1, st2, st3]).2
      = [Call.dial "w", Call.getSchema "w" ⟨"zone1", 101⟩] :=
  ⟨(serving_tablet_last_wins.1 "ks1" [st1, st2, st3]).trans rfl,
    serving_tablet_last_wins.2 cW ⟨"ks1"⟩ [st1, st2, st3] st2 rfl rfl⟩

theorem filterMap_filter_isSome {α β : Type} (f : α → Option β) (l : List α) :
    (l.filter (fun a => (f a).isSome)).filterMap f = l.filterMap f := by
  induction l with
  | nil => rfl
  | cons a l ih =>
    cases hfa : f a <;>
      simp [List.filter_cons, List.filterMap_cons, hfa, ih]

/-- C4: resolving a cluster-id filter is a pure function of the registry
and the filter.  An empty filter yields the full configured cluster
sequence and all known identifiers; a non-empty filter yields exactly the
clusters found in the registry for the given identifiers in caller order,
with identifiers missing from the registry dropped (filtering them away
first changes nothing) and no error signalled (the operation's type has no
error component). -/
theorem cluster_resolution :
    (∀ api : API,
      getClustersForRequest api [] = (api.clusters, clusterMapKeys api.clusters) ∧
      ∀ s, s ∈ clusterMapKeys api.clusters ↔ s ∈ api.clusters.map (fun c => c.id)) ∧
    (∀ (api : API) (ids : List String), ids ≠ [] →
      getClustersForRequest api ids = (ids.filterMap (clusterMapFind api.clusters), ids) ∧
      (getClustersForRequest api ids).1
        = (ids.filter (fun id => (clusterMapFind api.clusters id).isSome)).filterMap
            (clusterMapFind api.clusters)) := by
  constructor
  · intro api
    exact ⟨rfl, fun s => List.mem_dedup⟩
  · intro api ids hne
    have hfalse : ids.isEmpty = false := by
      cases ids with
      | nil => exact absurd rfl hne
      | cons a l => rfl
    constructor
    · simp [getClustersForRequest, hfalse]
    · simp [getClustersForRequest, hfalse, filterMap_filter_isSome]

/-- Witness for C4: a filter naming an unknown id and a known one resolves
to just the known cluster, in caller order, with the ids echoed back. -/
theorem cluster_resolution_witness :
    getClustersForRequest apiW ["nope", "w"] = ([cW], ["nope", "w"]) :=
  ((cluster_resolution.2 apiW ["nope", "w"] (by simp)).1).trans rfl

/-- C5: a non-empty filter of only unknown identifiers resolves to the
empty working set, and every list operation returns a successful empty
response having issued no remote call. -/
theorem unknown_ids_no_calls (api : API) (ids : List String) (hne : ids ≠ [])
    (hunk : ∀ id ∈ ids, clusterMapFind api.clusters id = none) :
    getClustersForRequest api ids = ([], ids) ∧
    GetGates api ids = ((some [], none), []) ∧
    GetKeyspaces api ids = ((some [], none), []) ∧
    GetSchemas api ids = ((some [], none), []) ∧
    GetTablets api ids = ((some [], none), []) := by
  have hfalse : ids.isEmpty = false := by
    cases ids with
    | nil => exact absurd rfl hne
    | cons a l => rfl
  have hemp : ids.filterMap (clusterMapFind api.clusters) = [] :=
    List.filterMap_eq_nil_iff.mpr hunk
  have hres : getClustersForRequest api ids = ([], ids) := by
    simp [getClustersForRequest, hfalse, hemp]
  refine ⟨hres, ?_, ?_, ?_, ?_⟩ <;>
    simp [GetGates, GetKeyspaces, GetSchemas, GetTablets, hres,
      getGatesLoop, getKeyspacesLoop, getSchemasLoop, getTabletsLoop]

/-- Witness for C5: an all-unknown filter against the sample API yields
empty successful responses and an empty call trace. -/
theorem unknown_ids_no_calls_witness :
    getClustersForRequest apiW ["nope"] = ([], ["nope"]) ∧
    GetGates apiW ["nope"] = ((some [], none), []) ∧
    GetKeyspaces apiW ["nope"] = ((some [], none), []) ∧
    GetSchemas apiW ["nope"] = ((some [], none), []) ∧
    GetTablets apiW ["nope"] = ((some [], none), []) :=
  unknown_ids_no_calls apiW ["nope"] (by simp)
    (by intro id hid; simp at hid; subst hid; rfl)

/-- C10: when a serving tablet was selected and the dial succeeded, every
degenerate outcome of the remote GetSchema call — nil result, nil inner
schema, or zero table definitions — makes getSchemasForKeyspace return
(nil, nil): the keyspace is skipped without error. -/
theorem degenerate_schema_skip (c : Cluster) (ks : Keyspace) (tablets : List Tablet)
    (kt : Tablet) (h : chooseServingTablet ks.name tablets = some kt)
    (hdial : c.dial = .ok ()) :
    (c.getSchema kt.tablet.tabletAlias = .ok none →
      (getSchemasForKeyspace c ks tablets).1 = (none, none)) ∧
    (∀ resp, c.getSchema kt.tablet.tabletAlias = .ok (some resp) →
      resp.schema = none →
      (getSchemasForKeyspace c ks tablets).1 = (none, none)) ∧
    (∀ resp sd, c.getSchema kt.tablet.tabletAlias = .ok (some resp) →
      resp.schema = some sd → sd.tableDefinitions = [] →
      (getSchemasForKeyspace c ks tablets).1 = (none, none)) := by
  refine ⟨?_, ?_, ?_⟩
  · intro hgs
    simp [getSchemasForKeyspace, h, hdial, hgs]
  · intro resp hgs hre
    simp [getSchemasForKeyspace, h, hdial, hgs, hre]
  · intro resp sd hgs hre hlen
    simp [getSchemasForKeyspace, h, hdial, hgs, hre, hlen]

/-- Witness for C10: the three degenerate sample clusters each skip the
keyspace with no error. -/
theorem degenerate_schema_skip_witness :
    (getSchemasForKeyspace cNilRes ⟨"ks1"⟩ [st1]).1 = (none, none) ∧
    (getSchemasForKeyspace cNilSchema ⟨"ks1"⟩ [st1]).1 = (none, none) ∧
    (getSchemasForKeyspace cEmptyDefs ⟨"ks1"⟩ [st1]).1 = (none, none) :=
  ⟨(degenerate_schema_skip cNilRes ⟨"ks1"⟩ [st1] st1 rfl rfl).1 rfl,
    (degenerate_schema_skip cNilSchema ⟨"ks1"⟩ [st1] st1 rfl rfl).2.1 ⟨none⟩ rfl rfl,
    (degenerate_schema_skip cEmptyDefs ⟨"ks1"⟩ [st1] st1 rfl rfl).2.2 ⟨some ⟨[]⟩⟩ ⟨[]⟩
      rfl rfl rfl⟩

theorem getSchemasForKeyspace_some_nonempty (c : Cluster) (ks : Keyspace)
    (tablets : List Tablet) (s : Schema)
    (h : (getSchemasForKeyspace c ks tablets).1.1 = some s) :
    s.tableDefinitions ≠ [] := by
  unfold getSchemasForKeyspace at h
  split at h
  · simp at h
  · split at h
    · simp at h
    · split at h
      · simp at h
      · simp at h
      · split at h
        · simp at h
        · split at h
          · simp at h
          · rename_i sd hlen
            simp only [Option.some.injEq] at h
            subst h
            simpa using hlen

theorem getSchemasKsStep_inv (c : Cluster) (tablets : List Tablet)
    (acc : List Schema × List Err × List Call) (ks : Keyspace)
    (hacc : ∀ s ∈ acc.1, s.tableDefinitions ≠ []) :
    ∀ s ∈ (getSchemasKsStep c tablets acc ks).1, s.tableDefinitions ≠ [] := by
  obtain ⟨schemas, errs, calls⟩ := acc
  rcases hk : getSchemasForKeyspace c ks tablets with ⟨⟨os, oe⟩, kc⟩
  cases oe with
  | some e =>
    simpa [getSchemasKsStep, hk] using hacc
  | none =>
    cases os with
    | none => simpa [getSchemasKsStep, hk] using hacc
    | some s =>
      have hs : s.tableDefinitions ≠ [] :=
        getSchemasForKeyspace_some_nonempty c ks tablets s (by rw [hk])
      simp only [getSchemasKsStep, hk]
      intro x hx
      simp only [List.mem_append, List.mem_singleton] at hx
      rcases hx with hx | hx
      · exact hacc x hx
      · subst hx; exact hs

theorem getSchemasKsFold_inv (c : Cluster) (tablets : List Tablet) :
    ∀ (kss : List Keyspace) (acc : List Schema × List Err × List Call),
      (∀ s ∈ acc.1, s.tableDefinitions ≠ []) →
      ∀ s ∈ (kss.foldl (getSchemasKsStep c tablets) acc).1, s.tableDefinitions ≠ [] := by
  intro kss
  induction kss with
  | nil => intro acc hacc; simpa using hacc
  | cons ks kss ih =>
    intro acc hacc
    exact ih (getSchemasKsStep c tablets acc ks)
      (getSchemasKsStep_inv c tablets acc ks hacc)

theorem getSchemas_some_nonempty (c : Cluster) (tablets : List Tablet)
    (ss : List Schema)
    (h : (getSchemas c tablets).1 = (some ss, none)) :
    ∀ s ∈ ss, s.tableDefinitions ≠ [] := by
  unfold getSchemas at h
  split at h
  · simp at h
  · split at h
    · simp at h
    · rename_i kss hkss
      rcases hfold : kss.foldl (getSchemasKsStep c tablets) ([], [], []) with ⟨schemas, errs, calls⟩
      rw [hfold] at h
      by_cases he : errs.isEmpty <;> simp [he] at h
      obtain ⟨rfl, -⟩ := h
      intro s hs
      have hinv := getSchemasKsFold_inv c tablets kss ([], [], []) (by simp)
      rw [hfold] at hinv
      exact hinv s hs

theorem getSchemasTopStep_inv (acc : List Schema × List Err × List Call) (c : Cluster)
    (hacc : ∀ s ∈ acc.1, s.tableDefinitions ≠ []) :
    ∀ s ∈ (getSchemasTopStep acc c).1, s.tableDefinitions ≠ [] := by
  obtain ⟨schemas, errs, calls⟩ := acc
  cases ht : c.getTablets with
  | error e => simpa [getSchemasTopStep, ht] using hacc
  | ok tablets =>
    rcases hg : getSchemas c tablets with ⟨⟨oss, oe⟩, cc⟩
    cases oe with
    | some e => simpa [getSchemasTopStep, ht, hg] using hacc
    | none =>
      simp only [getSchemasTopStep, ht, hg]
      intro x hx
      simp only [List.mem_append] at hx
      rcases hx with hx | hx
      · exact hacc x hx
      · cases oss with
        | none => simp at hx
        | some ss =>
          exact getSchemas_some_nonempty c tablets ss (by rw [hg]) x (by simpa using hx)

theorem getSchemasLoop_inv (clusters : List Cluster) :
    ∀ (acc : List Schema × List Err × List Call),
      (∀ s ∈ acc.1, s.tableDefinitions ≠ []) →
      ∀ s ∈ (clusters.foldl getSchemasTopStep acc).1, s.tableDefinitions ≠ [] := by
  induction clusters with
  | nil => intro acc hacc; simpa using hacc
  | cons c cs ih =>
    intro acc hacc
    exact ih (getSchemasTopStep acc c) (getSchemasTopStep_inv acc c hacc)

/-- C6: a keyspace with no serving tablet is silently skipped (no entry,
no error, no remote call); a keyspace whose fetched schema is degenerate
yields no entry and no error; consequently every Schema entry of a
successful GetSchemas response carries at least one table definition. -/
theorem schemas_have_table_definitions :
    (∀ (c : Cluster) (ks : Keyspace) (tablets : List Tablet),
      chooseServingTablet ks.name tablets = none →
      getSchemasForKeyspace c ks tablets = ((none, none), [])) ∧
    (∀ (c : Cluster) (ks : Keyspace) (tablets : List Tablet) (s : Schema),
      (getSchemasForKeyspace c ks tablets).1.1 = some s →
      s.tableDefinitions ≠ []) ∧
    (∀ (api : API) (ids : List String) (schemas : List Schema) (calls : List Call),
      GetSchemas api ids = ((some schemas, none), calls) →
      ∀ s ∈ schemas, s.tableDefinitions ≠ []) := by
  refine ⟨?_, getSchemasForKeyspace_some_nonempty, ?_⟩
  · intro c ks tablets h
    simp [getSchemasForKeyspace, h]
  · intro api ids schemas calls h
    simp only [GetSchemas] at h
    rcases hloop : getSchemasLoop (getClustersForRequest api ids).1 with ⟨ss, errs, cs⟩
    rw [hloop] at h
    by_cases he : errs.isEmpty <;> simp [he] at h
    obtain ⟨⟨rfl, -⟩, -⟩ := h
    intro s hs
    have hinv := getSchemasLoop_inv (getClustersForRequest api ids).1 ([], [], []) (by simp)
    unfold getSchemasLoop at hloop
    rw [hloop] at hinv
    exact hinv s hs

/-- Witness for C6: the sample API's GetSchemas succeeds and each returned
schema has a table definition; a keyspace with no serving tablet in the
list is skipped silently. -/
theorem schemas_have_table_definitions_witness :
    getSchemasForKeyspace cW ⟨"ks9"⟩ [st1, st2, st3] = ((none, none), []) ∧
    (∀ s ∈ [Schema.mk ⟨"w", "W"⟩ "ks1" [⟨"t1", "CREATE TABLE t1"⟩],
            Schema.mk ⟨"w", "W"⟩ "ks2" [⟨"t1", "CREATE TABLE t1"⟩]],
      s.tableDefinitions ≠ []) :=
  ⟨schemas_have_table_definitions.1 cW ⟨"ks9"⟩ [st1, st2, st3] rfl,
    schemas_have_table_definitions.2.2 apiW [] _ _ rfl⟩

/-- C9: a filter repeating a known identifier resolves to the cluster once
per occurrence, the per-cluster tablet listing is issued once per
duplicate, and with exactly one hostname match in the cluster GetTablet
fails with the ambiguous-tablet error instead of returning the tablet. -/
theorem duplicate_filter_ambiguous (api : API) (cid h : String) (c : Cluster)
    (ts : List Tablet) (t : Tablet)
    (hfind : clusterMapFind api.clusters cid = some c)
    (hts : c.getTablets = .ok ts)
    (hone : ts.filter (fun x => x.tablet.hostname == h) = [t]) :
    getClustersForRequest api [cid, cid] = ([c, c], [cid, cid]) ∧
    GetTablet api h [cid, cid]
      = ((none, some (.vterror .NOT_FOUND
          (ErrAmbiguousTabletMsg ++ ": " ++ h ++ ", searched clusters = "
            ++ goStringsFmt [cid, cid]))),
          [Call.getTablets c.id, Call.getTablets c.id]) := by
  have hres : getClustersForRequest api [cid, cid] = ([c, c], [cid, cid]) := by
    simp [getClustersForRequest, hfind]
  refine ⟨hres, ?_⟩
  have hloop : getTabletLoop h [c, c] = ([t, t], [], [Call.getTablets c.id, Call.getTablets c.id]) := by
    simp [getTabletLoop, getTabletStep, hts, hone]
  simp [GetTablet, hres, hloop]

/-- Witness for C9: hostname solo exists on exactly one tablet of the
sample cluster, yet the duplicated filter [w, w] makes GetTablet fail
ambiguous after two tablet listings. -/
theorem duplicate_filter_ambiguous_witness :
    getClustersForRequest apiW ["w", "w"] = ([cW, cW], ["w", "w"]) ∧
    GetTablet apiW "solo" ["w", "w"]
      = ((none, some (.vterror .NOT_FOUND
          (ErrAmbiguousTabletMsg ++ ": " ++ "solo" ++ ", searched clusters = "
            ++ goStringsFmt ["w", "w"]))),
          [Call.getTablets "w", Call.getTablets "w"]) :=
  duplicate_filter_ambiguous apiW "w" "solo" cW [st1, st2, st3] st3 rfl rfl rfl

/-- Counterexample for C2: the zero-match failure and the many-match
failure of GetTablet have the same programmatic kind — both are vterrors
with code NOT_FOUND — and differ only in their message strings, so a
caller cannot distinguish absent from ambiguous except by message text. -/
theorem tablet_error_kinds_coincide :
    ((GetTablet apiW "nope" ["w"]).1.2.map Err.kind
      = (GetTablet apiW "hh" ["w"]).1.2.map Err.kind) ∧
    ((GetTablet apiW "nope" ["w"]).1.2.map Err.kind
      = some (.vterror .NOT_FOUND)) ∧
    (GetTablet apiW "nope" ["w"]).1.2 ≠ (GetTablet apiW "hh" ["w"]).1.2 := by
  refine ⟨rfl, rfl, ?_⟩
  intro hcontra
  have h1 : (GetTablet apiW "nope" ["w"]).1.2
      = some (.vterror .NOT_FOUND
          (ErrNoTabletMsg ++ ": " ++ "nope" ++ ", searched clusters = "
            ++ goStringsFmt ["w"])) := rfl
  have h2 : (GetTablet apiW "hh" ["w"]).1.2
      = some (.vterror .NOT_FOUND
          (ErrAmbiguousTabletMsg ++ ": " ++ "hh" ++ ", searched clusters = "
            ++ goStringsFmt ["w"])) := rfl
  rw [h1, h2] at hcontra
  simp only [Option.some.injEq, Err.vterror.injEq] at hcontra
  exact absurd hcontra.2 (by decide)

/-- C2 as amended: when no fan-out branch records an error, GetTablet
yields exactly one of three outcomes — zero matches fails with a
NOT_FOUND-coded error whose message names the no-tablet sentinel and the
effective cluster identifiers; one match returns that tablet; two or more
matches fails with a NOT_FOUND-coded error whose message names the
ambiguous-tablet sentinel and the effective cluster identifiers.  The two
failures carry the same programmatic code and differ only in message
text. -/
theorem tablet_three_way_outcome (api : API) (hostname : String) (ids : List String)
    (herr : (getTabletLoop hostname (getClustersForRequest api ids).1).2.1 = []) :
    ((getTabletLoop hostname (getClustersForRequest api ids).1).1 = [] →
      GetTablet api hostname ids
        = ((none, some (.vterror .NOT_FOUND
            (ErrNoTabletMsg ++ ": " ++ hostname ++ ", searched clusters = "
              ++ goStringsFmt (getClustersForRequest api ids).2))),
            (getTabletLoop hostname (getClustersForRequest api ids).1).2.2)) ∧
    (∀ t, (getTabletLoop hostname (getClustersForRequest api ids).1).1 = [t] →
      GetTablet api hostname ids
        = ((some t, none),
            (getTabletLoop hostname (getClustersForRequest api ids).1).2.2)) ∧
    (2 ≤ (getTabletLoop hostname (getClustersForRequest api ids).1).1.length →
      GetTablet api hostname ids
        = ((none, some (.vterror .NOT_FOUND
            (ErrAmbiguousTabletMsg ++ ": " ++ hostname ++ ", searched clusters = "
              ++ goStringsFmt (getClustersForRequest api ids).2))),
            (getTabletLoop hostname (getClustersForRequest api ids).1).2.2)) := by
  rcases hres : getClustersForRequest api ids with ⟨cls, eids⟩
  rcases hloop : getTabletLoop hostname cls with ⟨ts, errs, cs⟩
  rw [hres] at herr
  rw [hloop] at herr
  simp only at herr
  subst herr
  refine ⟨?_, ?_, ?_⟩
  · intro hts
    simp only at hts
    subst hts
    simp [GetTablet, hres, hloop]
  · intro t hts
    simp only at hts
    subst hts
    simp [GetTablet, hres, hloop]
  · intro hlen
    simp only at hlen
    match ts, hlen with
    | t1 :: t2 :: rest, _ =>
      simp [GetTablet, hres, hloop]

/-- Witness for C2 (amended): on the sample API, hostname solo returns its
unique tablet, hostname nope yields the zero-match failure, and hostname
hh (two tablets) yields the many-match failure. -/
theorem tablet_three_way_outcome_witness :
    GetTablet apiW "solo" ["w"] = ((some st3, none), [Call.getTablets "w"]) ∧
    GetTablet apiW "nope" ["w"]
      = ((none, some (.vterror .NOT_FOUND
          (ErrNoTabletMsg ++ ": " ++ "nope" ++ ", searched clusters = "
            ++ goStringsFmt ["w"]))), [Call.getTablets "w"]) ∧
    GetTablet apiW "hh" ["w"]
      = ((none, some (.vterror .NOT_FOUND
          (ErrAmbiguousTabletMsg ++ ": " ++ "hh" ++ ", searched clusters = "
            ++ goStringsFmt ["w"]))), [Call.getTablets "w"]) :=
  ⟨((tablet_three_way_outcome apiW "solo" ["w"] rfl).2.1 st3 rfl).trans rfl,
    ((tablet_three_way_outcome apiW "nope" ["w"] rfl).1 rfl).trans rfl,
    ((tablet_three_way_outcome apiW "hh" ["w"] rfl).2.2 (by decide)).trans rfl⟩

/-- C7: VTExplain validates cluster id, keyspace and SQL before anything
else, one invalid-request condition per missing field, with no remote call
issued; empty SQL (with the other two present) fails naming "SQL query is
required" with an empty call trace; a non-empty unknown cluster id fails
with the unsupported-cluster error, a kind distinct from every
invalid-request error, again with no remote call. -/
theorem vtexplain_validation :
    (∀ (api : API) (eng : ExplainEngine) (ks sql : String),
      VTExplain api eng "" ks sql
        = ((none, some (.invalidRequest "cluster ID is required")), [])) ∧
    (∀ (api : API) (eng : ExplainEngine) (cid sql : String), cid ≠ "" →
      VTExplain api eng cid "" sql
        = ((none, some (.invalidRequest "keyspace name is required")), [])) ∧
    (∀ (api : API) (eng : ExplainEngine) (cid ks : String), cid ≠ "" → ks ≠ "" →
      VTExplain api eng cid ks ""
        = ((none, some (.invalidRequest "SQL query is required")), [])) ∧
    (∀ (api : API) (eng : ExplainEngine) (cid ks sql : String),
      cid ≠ "" → ks ≠ "" → sql ≠ "" →
      clusterMapFind api.clusters cid = none →
      VTExplain api eng cid ks sql = ((none, some .unsupportedCluster), [])) ∧
    (∀ msg, (Err.unsupportedCluster ≠ Err.invalidRequest msg)) := by
  refine ⟨?_, ?_, ?_, ?_, ?_⟩
  · intro api eng ks sql
    simp [VTExplain]
  · intro api eng cid sql hcid
    simp [VTExplain, hcid]
  · intro api eng cid ks hcid hks
    simp [VTExplain, hcid, hks]
  · intro api eng cid ks sql hcid hks hsql hfind
    simp [VTExplain, hcid, hks, hsql, hfind]
  · intro msg hcontra
    exact Err.noConfusion hcontra

/-- Witness for C7: the four validation failures at concrete requests,
each with an empty call trace. -/
theorem vtexplain_validation_witness :
    VTExplain apiW engineW "" "ks1" "select 1"
      = ((none, some (.invalidRequest "cluster ID is required")), []) ∧
    VTExplain apiW engineW "w" "" "select 1"
      = ((none, some (.invalidRequest "keyspace name is required")), []) ∧
    VTExplain apiW engineW "w" "ks1" ""
      = ((none, some (.invalidRequest "SQL query is required")), []) ∧
    VTExplain apiW engineW "zzz" "ks1" "select 1"
      = ((none, some .unsupportedCluster), []) :=
  ⟨vtexplain_validation.1 apiW engineW "ks1" "select 1",
    vtexplain_validation.2.1 apiW engineW "w" "select 1" (by decide),
    vtexplain_validation.2.2.1 apiW engineW "w" "ks1" (by decide) (by decide),
    vtexplain_validation.2.2.2.1 apiW engineW "zzz" "ks1" "select 1"
      (by decide) (by decide) (by decide) rfl⟩

theorem VTExplain_no_partial (api : API) (eng : ExplainEngine) (cid ks sql : String) :
    (VTExplain api eng cid ks sql).1.1.isSome →
    (VTExplain api eng cid ks sql).1.2 = none := by
  unfold VTExplain
  repeat' split
  all_goals intro hsome
  all_goals try (dsimp only at hsome ⊢)
  all_goals try (split_ifs at hsome ⊢)
  all_goals simp_all

/-- C1: the all-or-nothing law.  For each aggregate operation, the result
and error components are mutually exclusive (a present result forces a nil
error), and whenever the operation's fan-out recorded at least one error
the operation returns a nil result together with the combined
(aggregate) error, discarding every partial result the loop accumulated. -/
theorem all_or_nothing :
    (∀ (api : API) (ids : List String),
      ((GetGates api ids).1.1.isSome → (GetGates api ids).1.2 = none) ∧
      ((getGatesLoop (getClustersForRequest api ids).1).2.1 ≠ [] →
        GetGates api ids
          = ((none, some (.aggregate (getGatesLoop (getClustersForRequest api ids).1).2.1)),
              (getGatesLoop (getClustersForRequest api ids).1).2.2))) ∧
    (∀ (api : API) (ids : List String),
      ((GetKeyspaces api ids).1.1.isSome → (GetKeyspaces api ids).1.2 = none) ∧
      ((getKeyspacesLoop (getClustersForRequest api ids).1).2.1 ≠ [] →
        GetKeyspaces api ids
          = ((none, some (.aggregate (getKeyspacesLoop (getClustersForRequest api ids).1).2.1)),
              (getKeyspacesLoop (getClustersForRequest api ids).1).2.2))) ∧
    (∀ (api : API) (ids : List String),
      ((GetSchemas api ids).1.1.isSome → (GetSchemas api ids).1.2 = none) ∧
      ((getSchemasLoop (getClustersForRequest api ids).1).2.1 ≠ [] →
        GetSchemas api ids
          = ((none, some (.aggregate (getSchemasLoop (getClustersForRequest api ids).1).2.1)),
              (getSchemasLoop (getClustersForRequest api ids).1).2.2))) ∧
    (∀ (api : API) (ids : List String),
      ((GetTablets api ids).1.1.isSome → (GetTablets api ids).1.2 = none) ∧
      ((getTabletsLoop (getClustersForRequest api ids).1).2.1 ≠ [] →
        GetTablets api ids
          = ((none, some (.aggregate (getTabletsLoop (getClustersForRequest api ids).1).2.1)),
              (getTabletsLoop (getClustersForRequest api ids).1).2.2))) ∧
    (∀ (api : API) (hostname : String) (ids : List String),
      ((GetTablet api hostname ids).1.1.isSome → (GetTablet api hostname ids).1.2 = none) ∧
      ((getTabletLoop hostname (getClustersForRequest api ids).1).2.1 ≠ [] →
        GetTablet api hostname ids
          = ((none, some (.aggregate (getTabletLoop hostname (getClustersForRequest api ids).1).2.1)),
              (getTabletLoop hostname (getClustersForRequest api ids).1).2.2))) ∧
    (∀ (api : API) (eng : ExplainEngine) (cid ks sql : String),
      ((VTExplain api eng cid ks sql).1.1.isSome →
        (VTExplain api eng cid ks sql).1.2 = none)) ∧
    (∀ (api : API) (eng : ExplainEngine) (cid ks sql : String)
        (c : Cluster) (tablet : Tablet) (fcalls : List Call)
        (schema : String) (serrs : List Err) (scalls : List Call)
        (srvv : String) (verrs : List Err) (vcalls : List Call)
        (shm : String) (sherrs : List Err) (shcalls : List Call),
      cid ≠ "" → ks ≠ "" → sql ≠ "" →
      clusterMapFind api.clusters cid = some c →
      FindTablet c (vtexplainPred ks) = (.ok tablet, fcalls) →
      c.dial = .ok () →
      vtexplainSchemaBranch c tablet.tablet.tabletAlias = (.ok (schema, serrs), scalls) →
      vtexplainVSchemaBranch c ks tablet.tablet.tabletAlias.cell = ((srvv, verrs), vcalls) →
      vtexplainShardBranch c ks = ((shm, sherrs), shcalls) →
      serrs ++ verrs ++ sherrs ≠ [] →
      VTExplain api eng cid ks sql
        = ((none, some (.aggregate (serrs ++ verrs ++ sherrs))),
            fcalls ++ [Call.dial c.id] ++ scalls ++ vcalls ++ shcalls)) := by
  refine ⟨?_, ?_, ?_, ?_, ?_, VTExplain_no_partial, ?_⟩
  · intro api ids
    rcases hloop : getGatesLoop (getClustersForRequest api ids).1 with ⟨r, e, cs⟩
    by_cases he : e = [] <;>
      constructor <;> simp_all [GetGates, hloop, he]
  · intro api ids
    rcases hloop : getKeyspacesLoop (getClustersForRequest api ids).1 with ⟨r, e, cs⟩
    by_cases he : e = [] <;>
      constructor <;> simp_all [GetKeyspaces, hloop, he]
  · intro api ids
    rcases hloop : getSchemasLoop (getClustersForRequest api ids).1 with ⟨r, e, cs⟩
    by_cases he : e = [] <;>
      constructor <;> simp_all [GetSchemas, hloop, he]
  · intro api ids
    rcases hloop : getTabletsLoop (getClustersForRequest api ids).1 with ⟨r, e, cs⟩
    by_cases he : e = [] <;>
      constructor <;> simp_all [GetTablets, hloop, he]
  · intro api hostname ids
    rcases hloop : getTabletLoop hostname (getClustersForRequest api ids).1 with ⟨r, e, cs⟩
    by_cases he : e = []
    · constructor
      · intro hsome
        rcases hres : getClustersForRequest api ids with ⟨cls, eids⟩
        rw [hres] at hloop
        subst he
        match r with
        | [] => simp [GetTablet, hres, hloop] at hsome ⊢
        | [t] => simp [GetTablet, hres, hloop]
        | t1 :: t2 :: rest => simp [GetTablet, hres, hloop] at hsome ⊢
      · intro hne
        exact absurd (show (r, e, cs).2.1 = [] by simp [he]) hne
    · have hfalse : e.isEmpty = false := by
        cases e with
        | nil => exact absurd rfl he
        | cons a l => rfl
      rcases hres : getClustersForRequest api ids with ⟨cls, eids⟩
      rw [hres] at hloop
      constructor
      · intro hsome
        simp [GetTablet, hres, hloop, hfalse] at hsome
      · intro hne
        simp [GetTablet, hres, hloop, hfalse]
  · intro api eng cid ks sql c tablet fcalls schema serrs scalls srvv verrs vcalls
      shm sherrs shcalls hcid hks hsql hfind hft hdial hsb hvb hshb hne
    simp [VTExplain, hcid, hks, hsql, hfind, hft, hdial, hsb, hvb, hshb]
    intro h1 h2 h3
    subst h1
    subst h2
    subst h3
    simp at hne

/-- Witness for C1: against the sample API containing the failing cluster,
each list operation discards the healthy cluster's partial results and
fails with the combined error; VTExplain over the vschema-missing cluster
fails with the aggregate containing the missing-vschema condition. -/
theorem all_or_nothing_witness :
    (GetGates apiWF []).1 = (none, some (.aggregate [.remote "gate boom"])) ∧
    (GetKeyspaces apiWF []).1 = (none, some (.aggregate [.remote "dial boom"])) ∧
    (GetSchemas apiWF []).1 = (none, some (.aggregate [.remote "tablets boom"])) ∧
    (GetTablets apiWF []).1 = (none, some (.aggregate [.remote "tablets boom"])) ∧
    (GetTablet apiWF "solo" []).1 = (none, some (.aggregate [.remote "tablets boom"])) ∧
    (VTExplain apiM engineW "m" "ks2" "select 1").1
      = (none, some (.aggregate [.noSrvVSchema "ks2"])) := by
  refine ⟨?_, ?_, ?_, ?_, ?_, ?_⟩
  · exact (congrArg Prod.fst
      ((all_or_nothing.1 apiWF []).2 (fun h => List.noConfusion h))).trans rfl
  · exact (congrArg Prod.fst
      ((all_or_nothing.2.1 apiWF []).2 (fun h => List.noConfusion h))).trans rfl
  · exact (congrArg Prod.fst
      ((all_or_nothing.2.2.1 apiWF []).2 (fun h => List.noConfusion h))).trans rfl
  · exact (congrArg Prod.fst
      ((all_or_nothing.2.2.2.1 apiWF []).2 (fun h => List.noConfusion h))).trans rfl
  · exact (congrArg Prod.fst
      ((all_or_nothing.2.2.2.2.1 apiWF "solo" []).2 (fun h => List.noConfusion h))).trans rfl
  · exact (congrArg Prod.fst
      (all_or_nothing.2.2.2.2.2.2 apiM engineW "m" "ks2" "select 1" cMiss st3
        [Call.getTablets "m"] "CREATE TABLE t1" [] [Call.getSchema "m" ⟨"zone1", 102⟩]
        "" [.noSrvVSchema "ks2"] [Call.getSrvVSchema "m" "zone1"]
        (jsonFragment "ks2" (marshalShardMap [⟨"-", "\x7b\x7d"⟩])) []
        [Call.findAllShards "m" "ks2"]
        (by decide) (by decide) (by decide) rfl rfl rfl rfl rfl rfl
        (fun h => List.noConfusion h))).trans rfl

/-- C8: in VTExplain's serving-vschema fetch, when the remote response
lacks the target keyspace key the call fails with an aggregate containing
the missing-serving-vschema condition naming the keyspace; when the key is
present the artifact handed to the explain engine is exactly the fragment
`{"<keyspace>": <vschema-json>}`. -/
theorem vtexplain_vschema_fragment (api : API) (eng : ExplainEngine)
    (cid ks sql : String) (c : Cluster) (ts : List Tablet) (tablet : Tablet)
    (resp : GetSchemaResponse) (sd : SchemaDefinition) (vres : SrvVSchemaResult)
    (hcid : cid ≠ "") (hks : ks ≠ "") (hsql : sql ≠ "")
    (hfind : clusterMapFind api.clusters cid = some c)
    (hts : c.getTablets = .ok ts)
    (hmatch : ts.filter (vtexplainPred ks) = [tablet])
    (hdial : c.dial = .ok ())
    (hgs : c.getSchema tablet.tablet.tabletAlias = .ok (some resp))
    (hsd : resp.schema = some sd)
    (hvs : c.getSrvVSchema tablet.tablet.tabletAlias.cell = .ok vres) :
    (srvVSchemaFind vres.keyspaces ks = none →
      ∃ errs calls,
        VTExplain api eng cid ks sql = ((none, some (.aggregate errs)), calls) ∧
        Err.noSrvVSchema ks ∈ errs) ∧
    (∀ ksvs entries, srvVSchemaFind vres.keyspaces ks = some ksvs →
      c.findAllShards ks = .ok entries →
      Call.vtexplainInit (jsonFragment ks ksvs)
          (String.intercalate ";" (sd.tableDefinitions.map (fun td => td.schema)))
          (jsonFragment ks (marshalShardMap entries))
        ∈ (VTExplain api eng cid ks sql).2) := by
  have hft : FindTablet c (vtexplainPred ks) = (.ok tablet, [.getTablets c.id]) := by
    simp [FindTablet, hts, hmatch]
  have hsb : vtexplainSchemaBranch c tablet.tablet.tabletAlias
      = (.ok (String.intercalate ";" (sd.tableDefinitions.map (fun td => td.schema)), []),
          [.getSchema c.id tablet.tablet.tabletAlias]) := by
    simp [vtexplainSchemaBranch, hgs, hsd]
  constructor
  · intro hnone
    have hvb : vtexplainVSchemaBranch c ks tablet.tablet.tabletAlias.cell
        = (("", [.noSrvVSchema ks]), [.getSrvVSchema c.id tablet.tablet.tabletAlias.cell]) := by
      simp [vtexplainVSchemaBranch, hvs, hnone]
    cases hsh : c.findAllShards ks with
    | error e =>
      refine ⟨[.noSrvVSchema ks, .remote e],
        [.getTablets c.id, .dial c.id, .getSchema c.id tablet.tablet.tabletAlias,
          .getSrvVSchema c.id tablet.tablet.tabletAlias.cell, .findAllShards c.id ks],
        ?_, by simp⟩
      simp [VTExplain, hcid, hks, hsql, hfind, hft, hdial, hsb, hvb,
        vtexplainShardBranch, hsh]
    | ok entries =>
      refine ⟨[.noSrvVSchema ks],
        [.getTablets c.id, .dial c.id, .getSchema c.id tablet.tablet.tabletAlias,
          .getSrvVSchema c.id tablet.tablet.tabletAlias.cell, .findAllShards c.id ks],
        ?_, by simp⟩
      simp [VTExplain, hcid, hks, hsql, hfind, hft, hdial, hsb, hvb,
        vtexplainShardBranch, hsh]
  · intro ksvs entries hsome hsh
    have hvb : vtexplainVSchemaBranch c ks tablet.tablet.tabletAlias.cell
        = ((jsonFragment ks ksvs, []), [.getSrvVSchema c.id tablet.tablet.tabletAlias.cell]) := by
      simp [vtexplainVSchemaBranch, hvs, hsome]
    have hshb : vtexplainShardBranch c ks
        = ((jsonFragment ks (marshalShardMap entries), []), [.findAllShards c.id ks]) := by
      simp [vtexplainShardBranch, hsh]
    cases heng : eng.init (jsonFragment ks ksvs)
        (String.intercalate ";" (sd.tableDefinitions.map (fun td => td.schema)))
        (jsonFragment ks (marshalShardMap entries)) with
    | error e =>
      simp [VTExplain, hcid, hks, hsql, hfind, hft, hdial, hsb, hvb, hshb, heng]
    | ok u =>
      cases hrun : eng.run sql with
      | error e =>
        simp [VTExplain, hcid, hks, hsql, hfind, hft, hdial, hsb, hvb, hshb, heng, hrun]
      | ok plans =>
        simp [VTExplain, hcid, hks, hsql, hfind, hft, hdial, hsb, hvb, hshb, heng, hrun]

/-- Witness for C8: the vschema-missing sample cluster fails with an
aggregate containing the missing-vschema condition for ks2, while the
healthy cluster hands the explain engine the fragment built from the
stored vschema JSON of ks2. -/
theorem vtexplain_vschema_fragment_witness :
    (∃ errs calls,
      VTExplain apiM engineW "m" "ks2" "select 1"
        = ((none, some (.aggregate errs)), calls) ∧
      Err.noSrvVSchema "ks2" ∈ errs) ∧
    Call.vtexplainInit (jsonFragment "ks2" "vsjson") "CREATE TABLE t1"
        (jsonFragment "ks2" (marshalShardMap [⟨"-", "\x7b\x7d"⟩]))
      ∈ (VTExplain apiW engineW "w" "ks2" "select 1").2 :=
  ⟨(vtexplain_vschema_fragment apiM engineW "m" "ks2" "select 1" cMiss
      [st1, st2, st3] st3 ⟨some ⟨[⟨"t1", "CREATE TABLE t1"⟩]⟩⟩
      ⟨[⟨"t1", "CREATE TABLE t1"⟩]⟩ ⟨[]⟩
      (by decide) (by decide) (by decide) rfl rfl rfl rfl rfl rfl rfl).1 rfl,
    (vtexplain_vschema_fragment apiW engineW "w" "ks2" "select 1" cW
      [st1, st2, st3] st3 ⟨some ⟨[⟨"t1", "CREATE TABLE t1"⟩]⟩⟩
      ⟨[⟨"t1", "CREATE TABLE t1"⟩]⟩ ⟨[("ks2", "vsjson")]⟩
      (by decide) (by decide) (by decide) rfl rfl rfl rfl rfl rfl rfl).2
      "vsjson" [⟨"-", "\x7b\x7d"⟩] rfl rfl⟩

end Vtadmin
